import Mathlib

/-!
Verification of the pyswd transport/command layer: a shallow embedding of
`swd/_app.py` (numeric literal parsing, buffer formatting, the action engine)
and `swd/stlinkcom.py` (device selection, USB framing and faults).
Machine strings are modelled as Lean `String`/`List Char` restricted to the
ASCII fragment actually exercised by the tool; Python integers are `Int`.
-/

namespace Pyswd

/-! ## Python integer-literal parsing, `int(s, 0)` (ASCII model) -/

/-- ASCII model of the whitespace stripped by Python `int`. -/
def isPySpace (c : Char) : Bool :=
  c = ' ' || c = '\t' || c = '\n' || c = '\r' || c = '\x0b' || c = '\x0c'

/-- Value of a single digit character in bases up to 36, as Python does. -/
def digitVal (c : Char) : Option Nat :=
  if '0' ≤ c ∧ c ≤ '9' then some (c.toNat - 48)
  else if 'a' ≤ c ∧ c ≤ 'z' then some (c.toNat - 97 + 10)
  else if 'A' ≤ c ∧ c ≤ 'Z' then some (c.toNat - 65 + 10)
  else none

/-- Digit-run scanner of CPython integer literals: underscores must sit
between digits (`prevDigit` tracks the grouping rule, `seen` that at least
one real digit occurred; after a radix marker `prevDigit` starts true so
`0x_10` is accepted while a bare `_10` is not). -/
def parseDigitsGo (base : Nat) : List Char → Nat → Bool → Bool → Option Nat
  | [], acc, prevDigit, seen => if seen && prevDigit then some acc else none
  | '_' :: rest, acc, prevDigit, seen =>
      if prevDigit then parseDigitsGo base rest acc false seen else none
  | c :: rest, acc, _, _ =>
      match digitVal c with
      | some d => if d < base then parseDigitsGo base rest (acc * base + d) true true else none
      | none => none

/-- Digit run after an optional radix marker. -/
def parseDigits (base : Nat) (cs : List Char) (afterRadixMark : Bool) : Option Nat :=
  parseDigitsGo base cs 0 afterRadixMark false

/-- ASCII model of Python `int(s, 0)`: strip whitespace, optional sign,
`0x`/`0o`/`0b` radix markers, base-0 leading-zero rule (a leading `0`
without a radix marker only parses when the whole literal denotes zero),
underscore grouping. `none` models the `ValueError` outcome. -/
def pyIntBase0 (cs0 : List Char) : Option Int :=
  let cs1 := cs0.dropWhile isPySpace
  let cs := (cs1.reverse.dropWhile isPySpace).reverse
  let sb : Int × List Char :=
    match cs with
    | '+' :: rest => (1, rest)
    | '-' :: rest => (-1, rest)
    | _ => (1, cs)
  match sb.2 with
  | '0' :: c :: rest =>
    if c = 'x' ∨ c = 'X' then (parseDigits 16 rest true).map (fun n => sb.1 * (n : Int))
    else if c = 'o' ∨ c = 'O' then (parseDigits 8 rest true).map (fun n => sb.1 * (n : Int))
    else if c = 'b' ∨ c = 'B' then (parseDigits 2 rest true).map (fun n => sb.1 * (n : Int))
    else
      match parseDigits 10 ('0' :: c :: rest) false with
      | some 0 => some 0
      | _ => none
  | body => (parseDigits 10 body false).map (fun n => sb.1 * (n : Int))

/-! ## `convert_numeric` (src/swd/_app.py) -/

/-- The `UNITS` dictionary of `_app.py`: multiplier suffixes. -/
def UNITS (c : Char) : Option Nat :=
  if c = 'K' then some 1024
  else if c = 'M' then some (1024 ^ 2)
  else if c = 'G' then some (1024 ^ 3)
  else none

/-- The two `PyswdException` flavours `convert_numeric` can raise,
distinguished by their message shape. -/
inductive NumError
  | format (msg : String)
  | range (msg : String)
deriving DecidableEq

/-- Message carried by the exception. -/
def NumError.message : NumError → String
  | .format m => m
  | .range m => m

/-- `convert_numeric(num, max_bits=32)` of `_app.py`: empty string is 0; a
trailing K/M/G (upper-cased) multiplies the rest parsed by `int(_, 0)`;
otherwise the whole string is parsed; `ValueError` becomes the
wrong-format exception; a result `>= 2**max_bits` raises the too-big one. -/
def convert_numeric (num : String) (max_bits : Nat) : Except NumError Int :=
  match num.toList.getLast? with
  | none => .ok 0
  | some last =>
    let parsed : Option Int :=
      match UNITS last.toUpper with
      | some multi => (pyIntBase0 num.toList.dropLast).map (fun v => v * (multi : Int))
      | none => pyIntBase0 num.toList
    match parsed with
    | none => .error (.format ("number \"" ++ num ++ "\" has wrong format"))
    | some ret =>
      if (2 : Int) ^ max_bits ≤ ret then
        .error (.range (num ++ " is too big, number must fit into " ++ toString max_bits ++ " bits"))
      else .ok ret

/-- The value `convert_numeric` computes before its range check (spec view
used to state the range claim). -/
def parsedValue (num : String) : Option Int :=
  match num.toList.getLast? with
  | none => some 0
  | some last =>
    match UNITS last.toUpper with
    | some multi => (pyIntBase0 num.toList.dropLast).map (fun v => v * (multi : Int))
    | none => pyIntBase0 num.toList

/-! ## Buffer formatter (`chunks`, `hex_line8`, `ascii_line`, `print_buffer`) -/

/-- Lowercase hex digit for a value below 16. -/
def hexDigit (n : Nat) : Char :=
  if n < 10 then Char.ofNat (48 + n) else Char.ofNat (87 + n)

/-- Accumulating lowercase hex rendering; the first argument is structural
fuel (the value itself is always enough, since each step divides by 16). -/
def toHexAux : Nat → Nat → List Char → List Char
  | 0, _, acc => acc
  | fuel + 1, n, acc =>
    match n with
    | 0 => acc
    | m + 1 => toHexAux fuel ((m + 1) / 16) (hexDigit ((m + 1) % 16) :: acc)

/-- Lowercase hex string of a natural number, as Python `%x`. -/
def toHex (n : Nat) : String :=
  if n = 0 then "0" else String.mk (toHexAux n n [])

/-- Python `%0*x`: zero-pad on the left to a minimum width. -/
def fmtHexPad (width n : Nat) : String :=
  let s := toHex n
  String.mk (List.replicate (width - s.length) '0') ++ s

/-- Python `str.ljust`: pad on the right with spaces to a minimum width. -/
def ljust (s : String) (width : Nat) : String :=
  s ++ String.mk (List.replicate (width - s.length) ' ')

/-- Loop of `chunks(data, chunk_size)`, structurally recursive on fuel
(one unit per emitted chunk; `data.length + 1` always suffices because a
nonempty chunk consumes at least one element). -/
def chunksGo {α : Type} (chunk_size : Nat) : Nat → List α → List (List α)
  | 0, _ => []
  | fuel + 1, data =>
    if chunk_size = 0 ∨ data.length = 0 then []
    else data.take chunk_size :: chunksGo chunk_size fuel (data.drop chunk_size)

/-- `chunks(data, chunk_size)` of `_app.py`: split into consecutive runs of
at most `chunk_size` items; chunk size 0 yields nothing at all, exactly as
the islice-based generator does. -/
def chunks {α : Type} (data : List α) (chunk_size : Nat) : List (List α) :=
  chunksGo chunk_size (data.length + 1) data

/-- `hex_line8(chunk)`: space-joined `%02x` bytes, left-justified to 47. -/
def hex_line8 (chunk : List Nat) : String :=
  ljust (String.intercalate " " (chunk.map (fmtHexPad 2))) (16 * 3 - 1)

/-- `ascii_line(chunk)`: printable bytes as characters, the rest as dots. -/
def ascii_line (chunk : List Nat) : String :=
  String.mk (chunk.map (fun d => if 32 ≤ d ∧ d < 127 then Char.ofNat d else '.'))

/-- Loop body of `print_buffer`, threading `(addr, prev_chunk, same_chunk)`
and collecting the emitted lines plus the final state. The tty progress
branch (`print('%08x\r', end='')` when `same_chunk`, stdout is a tty and
the address is 4 KiB aligned) writes a carriage-return fragment, not a
newline-terminated line, so it contributes nothing to the line list. -/
def printBufferGo (hexLine : List Nat → String) (verbose : Nat) (isatty : Bool) :
    Nat → List Nat → Bool → List (List Nat) → List String × Bool × Nat
  | addr, _, same, [] => ([], same, addr)
  | addr, prev, same, chunk :: rest =>
    if verbose > 0 ∨ prev ≠ chunk then
      let line := fmtHexPad 8 addr ++ "  " ++ hexLine chunk ++ "  " ++ ascii_line chunk
      let r := printBufferGo hexLine verbose isatty (addr + chunk.length) chunk false rest
      (line :: r.1, r.2)
    else if ¬ same then
      let r := printBufferGo hexLine verbose isatty (addr + chunk.length) prev true rest
      ("*" :: r.1, r.2)
    else
      printBufferGo hexLine verbose isatty (addr + chunk.length) prev same rest

/-- `print_buffer(addr, data, hex_line, verbose)` of `_app.py`, returning
the newline-terminated lines it prints. After the loop a bare address line
is printed when the dump ended inside a de-duplicated run or when
`verbose > 1`. -/
def print_buffer (addr : Nat) (data : List Nat) (hexLine : List Nat → String)
    (verbose : Nat) (isatty : Bool) : List String :=
  let r := printBufferGo hexLine verbose isatty addr [] false (chunks data 16)
  if r.2.1 ∨ verbose > 1 then r.1 ++ [fmtHexPad 8 r.2.2] else r.1

/-! ## USB communication base (`StlinkComBase.write` / `.read`) -/

/-- Outcome of a raw pyusb pipe operation: a value, or a `usb.USBError`. -/
inductive UsbIOResult (α : Type)
  | ok (val : α)
  | usbErr (msg : String)

/-- Behaviour of the underlying pyusb device: a write returns the count of
bytes actually transferred, a read returns the bytes that arrived. -/
structure UsbDevice where
  writeCount : List Nat → UsbIOResult Nat
  readData : Nat → UsbIOResult (List Nat)

/-- `StlinkComBase.write(data)`: on `USBError` the stored device handle is
set to `None` and a `StlinkComException` is raised; a short transfer raises
`StlinkComException("Error Sending data")` (handle kept). Returns the
post-call handle and the outcome. -/
def comWrite (dev : UsbDevice) (data : List Nat) : Option UsbDevice × Except String Unit :=
  match dev.writeCount data with
  | .usbErr msg => (none, .error ("USB Error: " ++ msg))
  | .ok count =>
    if count ≠ data.length then (some dev, .error "Error Sending data")
    else (some dev, .ok ())

/-- `StlinkComBase.read(size)`: on `USBError` the handle is dropped and a
`StlinkComException` is raised; otherwise the first `size` received bytes
are returned. -/
def comRead (dev : UsbDevice) (size : Nat) : Option UsbDevice × Except String (List Nat) :=
  match dev.readData size with
  | .usbErr msg => (none, .error ("USB Error: " ++ msg))
  | .ok data => (some dev, .ok (data.take size))

/-! ## Device selection (`StlinkCom.__init__`, `_filter_devices`) -/

/-- A discovered probe, reduced to its canonical serial string (field
`serial_no` of `StlinkComBase`, already in upper hex form). -/
structure DeviceCand where
  serial_no : String
deriving DecidableEq

/-- Python `str.startswith`, on the character lists of the strings. -/
def pyStartswith (s pre : String) : Bool :=
  pre.toList.isPrefixOf s.toList

/-- Python `str.endswith`, on the character lists of the strings. -/
def pyEndswith (s suf : String) : Bool :=
  suf.toList.reverse.isPrefixOf s.toList.reverse

/-- `StlinkCom._filter_devices(devices, serial_no)`: keep the devices whose
serial starts with or ends with the filter. -/
def filter_devices (devices : List DeviceCand) (serial_no : String) : List DeviceCand :=
  devices.filter (fun dev => pyStartswith dev.serial_no serial_no || pyEndswith dev.serial_no serial_no)

/-- Outcome of `StlinkCom.__init__`: `StlinkComNotFound`,
`StlinkComMoreDevices` (carrying the serials of every remaining device, as
its constructor collects them), or a selected device. -/
inductive ComInitResult
  | notFound
  | moreDevices (serial_numbers : List String)
  | selected (dev : DeviceCand)
deriving DecidableEq

/-- `StlinkCom.__init__(serial_no)` given the enumerated devices: filter
when the serial filter is nonempty, then fail on zero or on more than one
remaining device. -/
def stlinkComInit (devices : List DeviceCand) (serial_no : String) : ComInitResult :=
  let devs := if serial_no ≠ "" then filter_devices devices serial_no else devices
  match devs with
  | [] => .notFound
  | [d] => .selected d
  | ds => .moreDevices (ds.map (fun dev => dev.serial_no))

/-! ## Command framing (`StlinkCom.xfer`) -/

/-- `StlinkCom._STLINK_CMD_SIZE`. -/
def STLINK_CMD_SIZE : Nat := 16

/-- One pipe operation performed by `xfer`. -/
inductive ComEvent
  | writeEv (data : List Nat)
  | readEv (size : Nat)
deriving DecidableEq

/-- `StlinkCom.xfer(command, data, rx_length)`: reject an over-long command
before touching the pipe, else pad the command with zero bytes up to the
fixed size and write it, write the payload when truthy, read when
`rx_length` is truthy. Returns the pipe events in order, the final
contents of the caller's `command` list (`command += [0] * n` extends that
very list object in place), and the outcome. -/
def xfer (command data : List Nat) (rx_length : Nat) :
    List ComEvent × List Nat × Except String Unit :=
  if STLINK_CMD_SIZE < command.length then
    ([], command,
      .error ("Error too many Bytes in command (maximum is "
        ++ toString STLINK_CMD_SIZE ++ " Bytes)"))
  else
    let padded := command ++ List.replicate (STLINK_CMD_SIZE - command.length) 0
    (ComEvent.writeEv padded ::
        ((if data ≠ [] then [ComEvent.writeEv data] else [])
          ++ (if rx_length ≠ 0 then [ComEvent.readEv rx_length] else [])),
      padded, .ok ())

/-! ## Action engine (`Application.action_reg`, `Application.process_actions`) -/

/-- Failures crossing the action-dispatch boundary: the tool's own
`PyswdException`, or any other exception type. -/
inductive AppError
  | pyswd (msg : String)
  | ext (msg : String)
deriving DecidableEq

/-- Calls `action_reg` makes on the CortexM capability surface, in order. -/
inductive CoreOp
  | isHalted (result : Bool)
  | halt
  | run
  | getReg (name : String)
  | setReg (name : String) (value : Int)
  | getRegAll
deriving DecidableEq

/-- The ops that are register accesses (as opposed to halt/run control). -/
def isRegAccess : CoreOp → Bool
  | .getReg _ => true
  | .setReg _ _ => true
  | .getRegAll => true
  | _ => false

/-- `Application.action_reg(params)` given the core's halted flag: remember
`halted = is_halted()`, halt when not halted, perform the access (reading
one register, all of them, or writing one after `convert_numeric`), raise
on wrong arity, and run the core again only when `halted` was false and no
exception interrupted the tail of the method. Returns the final halted
flag, the capability calls made, and the outcome. -/
def action_reg (halted0 : Bool) (params : List String) :
    Bool × List CoreOp × Except AppError Unit :=
  match params with
  | [] => (halted0, [], .error (.pyswd "no parameters"))
  | p :: rest =>
    let pre := if halted0 then [CoreOp.isHalted true] else [CoreOp.isHalted false, CoreOp.halt]
    match rest with
    | [] =>
      let access := if p = "all" then [CoreOp.getRegAll] else [CoreOp.getReg p]
      if halted0 then (true, pre ++ access, .ok ())
      else (false, pre ++ access ++ [CoreOp.run], .ok ())
    | [v] =>
      match convert_numeric v 32 with
      | .error e => (true, pre, .error (.pyswd e.message))
      | .ok val =>
        if halted0 then (true, pre ++ [CoreOp.setReg p val], .ok ())
        else (false, pre ++ [CoreOp.setReg p val, CoreOp.run], .ok ())
    | _ => (true, pre, .error (.pyswd "too many parameters"))

/-- Loop of Python `str.split(sep)` for a one-character separator. -/
def pySplitGo (sep : Char) : List Char → List Char → List String
  | [], acc => [String.mk acc.reverse]
  | c :: rest, acc =>
    if c = sep then String.mk acc.reverse :: pySplitGo sep rest []
    else pySplitGo sep rest (c :: acc)

/-- Python `action.split(":")`: always nonempty, `""` splits to `[""]`. -/
def pySplitColon (s : String) : List String :=
  pySplitGo ':' s.toList []

/-- `Application.process_actions()` over a batch, with the reflective
`hasattr`/`getattr` handler lookup modelled as a partial map from the
`"action_" + name` key. Each entry is split on `":"`; a missing handler
raises the not-implemented `PyswdException` (outside the `try`, so never
re-wrapped); a handler failure of type `PyswdException` is re-raised as
`PyswdException(name + ": " + msg)`, any other exception propagates as it
is; either way the loop stops. Returns the invoked `(name, params)` pairs
in order and the first failure, if any. -/
def processActions (handlers : String → Option (List String → Except AppError Unit)) :
    List String → List (String × List String) × Option AppError
  | [] => ([], none)
  | action :: rest =>
    let parts := pySplitColon action
    let name := parts.headD ""
    let params := parts.tail
    match handlers ("action_" ++ name) with
    | none => ([], some (.pyswd ("action \x27" ++ action ++ "\x27 is not implemented")))
    | some h =>
      match h params with
      | .ok _ =>
        let r := processActions handlers rest
        ((name, params) :: r.1, r.2)
      | .error (.pyswd msg) => ([(name, params)], some (.pyswd (name ++ ": " ++ msg)))
      | .error (.ext msg) => ([(name, params)], some (.ext msg))

/-! ## Handler registries used to exercise `processActions` -/

/-- A registry whose only handler raises a non-`PyswdException` failure. -/
def raisesOtherError : String → Option (List String → Except AppError Unit) :=
  fun name => if name = "action_boom" then some (fun _ => .error (.ext "kaboom")) else none

/-- A registry whose only handler raises a `PyswdException`. -/
def raisesPyswdError : String → Option (List String → Except AppError Unit) :=
  fun name => if name = "action_dump" then some (fun _ => .error (.pyswd "no parameters")) else none

/-- The all-zero 32-byte dump of the formatter claims. -/
def zeroDump (isatty : Bool) : List String :=
  print_buffer 0 (List.replicate 32 0) hex_line8 0 isatty

/-- A device whose writes report 0 bytes transferred and whose reads raise
`usb.USBError`. -/
def faultyDev : UsbDevice where
  writeCount := fun _ => .ok 0
  readData := fun _ => .usbErr "pipe broken"

/-! ## Claim theorems -/

/-- C1, counterexample: a 32-byte all-zero buffer at width 1 and verbosity 0
does NOT render exactly two lines — `print_buffer` emits a third, trailing
address line because the dump ended inside a de-duplicated run
(`same_chunk` is true after the loop, and the trailing print fires on
`same_chunk or verbose > 1`, not only on verbosity at least 2). -/
theorem print_buffer_allzero_not_two_lines :
    (print_buffer 0 (List.replicate 32 0) hex_line8 0 false).length ≠ 2 := by
  decide

/-- C1, amended: the 32-byte all-zero buffer at width 1 and verbosity 0
renders exactly three lines — the zero hex/ASCII line, a single `*`
de-duplication marker, and a trailing final-address line `00000020` —
whether or not stdout is a terminal. -/
theorem print_buffer_allzero_three_lines :
    print_buffer 0 (List.replicate 32 0) hex_line8 0 false =
      ["00000000  00 00 00 00 00 00 00 00 00 00 00 00 00 00 00 00  ................",
        "*", "00000020"] ∧
    print_buffer 0 (List.replicate 32 0) hex_line8 0 true =
      ["00000000  00 00 00 00 00 00 00 00 00 00 00 00 00 00 00 00  ................",
        "*", "00000020"] := by
  exact ⟨rfl, rfl⟩

/-- C2, counterexample: a handler failure that is not a `PyswdException`
aborts the batch but is re-raised unchanged — the action name `boom` is
not prepended to it, refuting the claim for arbitrary failure types. -/
theorem processActions_no_wrap_for_other_errors :
    processActions raisesOtherError ["boom", "halt"] =
      ([("boom", [])], some (.ext "kaboom")) ∧
    AppError.ext "kaboom" ≠ AppError.ext ("boom" ++ ": " ++ "kaboom") := by
  exact ⟨rfl, by decide⟩

/-- C2, amended: a `PyswdException` raised by a handler is re-raised with
the action name prepended (`name: msg`), and any handler failure — of
either exception type — aborts the batch: processing `action :: rest`
equals processing `[action]` alone, so no later action is ever attempted. -/
theorem processActions_abort_and_wrap
    (handlers : String → Option (List String → Except AppError Unit))
    (action : String) (rest : List String) :
    (∀ name ps h msg, pySplitColon action = name :: ps →
      handlers ("action_" ++ name) = some h →
      h ps = .error (.pyswd msg) →
      processActions handlers (action :: rest) =
        ([(name, ps)], some (.pyswd (name ++ ": " ++ msg)))) ∧
    (∀ name ps h e, pySplitColon action = name :: ps →
      handlers ("action_" ++ name) = some h →
      h ps = .error e →
      processActions handlers (action :: rest) = processActions handlers [action]) := by
  constructor
  · intro name ps h msg hsp hh he
    simp [processActions, hsp, hh, he]
  · intro name ps h e hsp hh he
    cases e <;> simp [processActions, hsp, hh, he]

/-- C2, witness for the amended theorem at a concrete batch. -/
theorem processActions_abort_and_wrap_witness :
    processActions raisesPyswdError ["dump", "halt"] =
      ([("dump", [])], some (.pyswd "dump: no parameters")) :=
  (processActions_abort_and_wrap raisesPyswdError "dump" ["halt"]).1
    "dump" [] (fun _ => .error (.pyswd "no parameters")) "no parameters" rfl rfl rfl

/-- C3: a pipe write that transfers fewer bytes than requested raises the
`StlinkComException` transport error, and an underlying `usb.USBError` on a
write or a read drops the stored device handle (`self._dev = None`, so it
cannot be reused) and raises the transport error. -/
theorem com_write_read_faults (dev : UsbDevice) (data : List Nat) (size : Nat) :
    (∀ count, dev.writeCount data = .ok count → count ≠ data.length →
      (comWrite dev data).2 = .error "Error Sending data") ∧
    (∀ msg, dev.writeCount data = .usbErr msg →
      (comWrite dev data).1 = none ∧
        (comWrite dev data).2 = .error ("USB Error: " ++ msg)) ∧
    (∀ msg, dev.readData size = .usbErr msg →
      (comRead dev size).1 = none ∧
        (comRead dev size).2 = .error ("USB Error: " ++ msg)) := by
  refine ⟨fun count hw hne => ?_, fun msg hw => ?_, fun msg hr => ?_⟩
  · simp [comWrite, hw, hne]
  · simp [comWrite, hw]
  · simp [comRead, hr]

/-- C3, witness: a short write errors, a faulted read drops the handle. -/
theorem com_write_read_faults_witness :
    (comWrite faultyDev [1]).2 = .error "Error Sending data" ∧
    (comRead faultyDev 4).1 = none :=
  ⟨(com_write_read_faults faultyDev [1] 4).1 0 rfl (by decide),
    ((com_write_read_faults faultyDev [1] 4).2.2 "pipe broken" rfl).1⟩

/-- C4: with a nonempty serial filter, selection retains exactly the
candidates whose serial starts with or ends with the filter; an empty
retained set raises `StlinkComNotFound`, a single survivor is selected,
and several survivors raise `StlinkComMoreDevices` carrying every
surviving serial. On serials `ABCD1111`, `ABCD2222`, `EF001111`: filter
`1111` keeps the first and third (ambiguous, both serials reported),
`ABCD` keeps the first two (ambiguous), `ABCD1111` selects the first. -/
theorem stlinkComInit_selection (devices : List DeviceCand) (serial_no : String)
    (hne : serial_no ≠ "") :
    (∀ d, d ∈ filter_devices devices serial_no ↔
      d ∈ devices ∧ (pyStartswith d.serial_no serial_no = true ∨
        pyEndswith d.serial_no serial_no = true)) ∧
    (filter_devices devices serial_no = [] →
      stlinkComInit devices serial_no = .notFound) ∧
    (∀ d, filter_devices devices serial_no = [d] →
      stlinkComInit devices serial_no = .selected d) ∧
    (1 < (filter_devices devices serial_no).length →
      stlinkComInit devices serial_no =
        .moreDevices ((filter_devices devices serial_no).map (fun dev => dev.serial_no))) ∧
    stlinkComInit [⟨"ABCD1111"⟩, ⟨"ABCD2222"⟩, ⟨"EF001111"⟩] "1111" =
      .moreDevices ["ABCD1111", "EF001111"] ∧
    stlinkComInit [⟨"ABCD1111"⟩, ⟨"ABCD2222"⟩, ⟨"EF001111"⟩] "ABCD" =
      .moreDevices ["ABCD1111", "ABCD2222"] ∧
    stlinkComInit [⟨"ABCD1111"⟩, ⟨"ABCD2222"⟩, ⟨"EF001111"⟩] "ABCD1111" =
      .selected ⟨"ABCD1111"⟩ := by
  refine ⟨?_, ?_, ?_, ?_, rfl, rfl, rfl⟩
  · intro d
    simp [filter_devices, List.mem_filter]
  · intro hf
    simp [stlinkComInit, hne, hf]
  · intro d hf
    simp [stlinkComInit, hne, hf]
  · intro hlen
    rcases hfd : filter_devices devices serial_no with _ | ⟨a, _ | ⟨b, tl⟩⟩
    · rw [hfd] at hlen; simp at hlen
    · rw [hfd] at hlen; simp at hlen
    · simp [stlinkComInit, hne, hfd]

/-- C4, witness at the concrete candidate set of the claim. -/
theorem stlinkComInit_selection_witness :
    stlinkComInit [⟨"ABCD1111"⟩, ⟨"ABCD2222"⟩, ⟨"EF001111"⟩] "1111" =
      .moreDevices ["ABCD1111", "EF001111"] :=
  (stlinkComInit_selection [⟨"ABCD1111"⟩, ⟨"ABCD2222"⟩, ⟨"EF001111"⟩] "1111"
    (by decide)).2.2.2.2.1

/-- C5: `xfer` rejects a command longer than the 16-byte header capacity
with the frame-too-large `StlinkComException` before performing any pipe
operation (no write or read events); a command of exactly 16 bytes is
written unpadded; a shorter command is zero-padded to exactly 16 bytes
before the write. -/
theorem xfer_framing (command data : List Nat) (rx_length : Nat) :
    (STLINK_CMD_SIZE < command.length →
      xfer command data rx_length =
        ([], command,
          .error "Error too many Bytes in command (maximum is 16 Bytes)")) ∧
    (command.length = STLINK_CMD_SIZE →
      (xfer command data rx_length).1 =
        ComEvent.writeEv command ::
          ((if data ≠ [] then [ComEvent.writeEv data] else [])
            ++ (if rx_length ≠ 0 then [ComEvent.readEv rx_length] else []))) ∧
    (command.length < STLINK_CMD_SIZE →
      (xfer command data rx_length).1 =
        ComEvent.writeEv (command ++ List.replicate (STLINK_CMD_SIZE - command.length) 0) ::
          ((if data ≠ [] then [ComEvent.writeEv data] else [])
            ++ (if rx_length ≠ 0 then [ComEvent.readEv rx_length] else [])) ∧
      (command ++ List.replicate (STLINK_CMD_SIZE - command.length) 0).length
        = STLINK_CMD_SIZE) := by
  refine ⟨fun h => ?_, fun h => ?_, fun h => ?_⟩
  · unfold xfer
    rw [if_pos h]
    rfl
  · have h' : ¬ STLINK_CMD_SIZE < command.length := by omega
    unfold xfer
    rw [if_neg h']
    simp [h]
  · have h' : ¬ STLINK_CMD_SIZE < command.length := by omega
    constructor
    · unfold xfer
      rw [if_neg h']
    · simp only [List.length_append, List.length_replicate]
      omega

/-- C5, witness at commands of length 17, 16 and 2. -/
theorem xfer_framing_witness :
    xfer (List.replicate 17 1) [] 0 =
      ([], List.replicate 17 1,
        .error "Error too many Bytes in command (maximum is 16 Bytes)") ∧
    (xfer (List.replicate 16 1) [] 0).1 = [ComEvent.writeEv (List.replicate 16 1)] ∧
    (xfer [1, 2] [3] 4).1 =
      [ComEvent.writeEv [1, 2, 0, 0, 0, 0, 0, 0, 0, 0, 0, 0, 0, 0, 0, 0],
        ComEvent.writeEv [3], ComEvent.readEv 4] :=
  ⟨(xfer_framing (List.replicate 17 1) [] 0).1 (by decide),
    (xfer_framing (List.replicate 16 1) [] 0).2.1 (by decide),
    ((xfer_framing [1, 2] [3] 4).2.2 (by decide)).1⟩

/-- C6: `convert_numeric` maps the empty string to 0; a trailing K/M/G
multiplier (case-insensitive) multiplies the integer literal parsed from
the rest of the string under Python `int(_, 0)` radix rules; without such
a suffix the whole string is parsed; an unparseable literal raises the
wrong-format `PyswdException`; `1K` is 1024 and `0x10` is 16 (plus the
other literal forms the tool documents: decimal, hex, octal, binary). -/
theorem convert_numeric_parses_literals :
    (∀ mb, convert_numeric "" mb = .ok 0) ∧
    convert_numeric "1K" 32 = .ok 1024 ∧
    convert_numeric "0x10" 32 = .ok 16 ∧
    convert_numeric "42" 32 = .ok 42 ∧
    convert_numeric "0x2a" 32 = .ok 42 ∧
    convert_numeric "0o52" 32 = .ok 42 ∧
    convert_numeric "0b101010" 32 = .ok 42 ∧
    convert_numeric "32K" 32 = .ok 32768 ∧
    convert_numeric "1M" 32 = .ok 1048576 ∧
    convert_numeric "1g" 32 = .ok 1073741824 ∧
    convert_numeric "zz" 32 = .error (.format "number \"zz\" has wrong format") ∧
    (∀ num mb last multi v, num.toList.getLast? = some last →
      UNITS last.toUpper = some multi →
      pyIntBase0 num.toList.dropLast = some v →
      v * (multi : Int) < (2 : Int) ^ mb →
      convert_numeric num mb = .ok (v * multi)) ∧
    (∀ num mb last multi, num.toList.getLast? = some last →
      UNITS last.toUpper = some multi →
      pyIntBase0 num.toList.dropLast = none →
      convert_numeric num mb =
        .error (.format ("number \"" ++ num ++ "\" has wrong format"))) ∧
    (∀ num mb last v, num.toList.getLast? = some last →
      UNITS last.toUpper = none →
      pyIntBase0 num.toList = some v →
      v < (2 : Int) ^ mb →
      convert_numeric num mb = .ok v) ∧
    (∀ num mb last, num.toList.getLast? = some last →
      UNITS last.toUpper = none →
      pyIntBase0 num.toList = none →
      convert_numeric num mb =
        .error (.format ("number \"" ++ num ++ "\" has wrong format"))) := by
  refine ⟨fun mb => rfl, rfl, rfl, rfl, rfl, rfl, rfl, rfl, rfl, rfl, rfl,
    ?_, ?_, ?_, ?_⟩
  · intro num mb last multi v h1 h2 h3 h4
    simp only [convert_numeric, h1, h2, h3, Option.map_some']
    rw [if_neg (not_le.mpr h4)]
  · intro num mb last multi h1 h2 h3
    simp only [convert_numeric, h1, h2, h3, Option.map_none']
  · intro num mb last v h1 h2 h3 h4
    simp only [convert_numeric, h1, h2, h3]
    rw [if_neg (not_le.mpr h4)]
  · intro num mb last h1 h2 h3
    simp only [convert_numeric, h1, h2, h3]

/-- C6, witness: the suffix branch at `2K`. -/
theorem convert_numeric_parses_literals_witness :
    convert_numeric "2K" 32 = .ok (2 * ((1024 : Nat) : Int)) :=
  convert_numeric_parses_literals.2.2.2.2.2.2.2.2.2.2.2.1
    "2K" 32 'K' 1024 2 rfl rfl rfl (by decide)

/-- C7: for an input whose literal part parses to `v`, `convert_numeric`
raises the range `PyswdException` exactly when `v ≥ 2^max_bits`; `256`
at 8 bits fails while `255` succeeds. -/
theorem convert_numeric_range_check (num : String) (mb : Nat) (v : Int)
    (h : parsedValue num = some v) :
    ((∃ msg, convert_numeric num mb = .error (.range msg)) ↔ (2 : Int) ^ mb ≤ v) ∧
    convert_numeric "256" 8 =
      .error (.range "256 is too big, number must fit into 8 bits") ∧
    convert_numeric "255" 8 = .ok 255 := by
  refine ⟨?_, rfl, rfl⟩
  cases hL : num.toList.getLast? with
  | none =>
    simp only [parsedValue, hL] at h
    obtain rfl : (0 : Int) = v := by simpa using h
    have hpos : (0 : Int) < 2 ^ mb := by positivity
    simp only [convert_numeric, hL]
    constructor
    · rintro ⟨msg, hc⟩
      simp at hc
    · intro hle
      omega
  | some last =>
    simp only [parsedValue, hL] at h
    simp only [convert_numeric, hL]
    rw [h]
    by_cases hif : (2 : Int) ^ mb ≤ v <;> simp [hif]

/-- C7, witness at `256` with 8 bits. -/
theorem convert_numeric_range_check_witness :
    (∃ msg, convert_numeric "256" 8 = .error (.range msg)) ↔ (2 : Int) ^ 8 ≤ 256 :=
  (convert_numeric_range_check "256" 8 256 rfl).1

/-- C8: every successful `reg` action queries the halted flag first; when
the core was running it halts it, performs only register accesses, and
runs the core again (ending not halted); when the core was already halted
it performs the accesses with no halt call and leaves the core halted —
it never runs a core it did not halt itself. -/
theorem action_reg_halt_resume (halted0 : Bool) (params : List String)
    (final : Bool) (tr : List CoreOp)
    (h : action_reg halted0 params = (final, tr, .ok ())) :
    ∃ access, (∀ op ∈ access, isRegAccess op = true) ∧
      (halted0 = false →
        tr = CoreOp.isHalted false :: CoreOp.halt :: (access ++ [CoreOp.run]) ∧
          final = false) ∧
      (halted0 = true → tr = CoreOp.isHalted true :: access ∧ final = true) := by
  rcases params with _ | ⟨p, _ | ⟨v, _ | ⟨w, ps⟩⟩⟩
  · simp [action_reg] at h
  · refine ⟨if p = "all" then [CoreOp.getRegAll] else [CoreOp.getReg p], ?_, ?_, ?_⟩
    · intro op hop
      by_cases hall : p = "all" <;> simp [hall] at hop <;> simp [hop, isRegAccess]
    · intro h0
      subst h0
      simp [action_reg] at h
      exact ⟨h.2.symm, h.1⟩
    · intro h0
      subst h0
      simp [action_reg] at h
      exact ⟨h.2.symm, h.1⟩
  · rcases hcv : convert_numeric v 32 with e | val
    · exfalso
      cases halted0 <;> simp [action_reg, hcv] at h
    · refine ⟨[CoreOp.setReg p val], ?_, ?_, ?_⟩
      · intro op hop
        simp at hop
        simp [hop, isRegAccess]
      · intro h0
        subst h0
        simp [action_reg, hcv] at h
        exact ⟨h.2.symm, h.1⟩
      · intro h0
        subst h0
        simp [action_reg, hcv] at h
        exact ⟨h.2.symm, h.1⟩
  · cases halted0 <;> simp [action_reg] at h

/-- C8, witness: `reg:R0` on a running core. -/
theorem action_reg_halt_resume_witness :
    ∃ access, (∀ op ∈ access, isRegAccess op = true) ∧
      (false = false →
        [CoreOp.isHalted false, CoreOp.halt, CoreOp.getReg "R0", CoreOp.run] =
          CoreOp.isHalted false :: CoreOp.halt :: (access ++ [CoreOp.run]) ∧
          false = false) ∧
      (false = true →
        [CoreOp.isHalted false, CoreOp.halt, CoreOp.getReg "R0", CoreOp.run] =
          CoreOp.isHalted true :: access ∧ false = true) :=
  action_reg_halt_resume false ["R0"] false
    [CoreOp.isHalted false, CoreOp.halt, CoreOp.getReg "R0", CoreOp.run] rfl

/-- C9: a `reg` action with three or more parameters on a running core
first halts it, then raises the too-many-parameters `PyswdException`, and
never runs the core again: the halted state is left changed to true. -/
theorem action_reg_arity_error_leaves_halted (params : List String)
    (h : 3 ≤ params.length) :
    action_reg false params =
      (true, [CoreOp.isHalted false, CoreOp.halt],
        .error (.pyswd "too many parameters")) := by
  rcases params with _ | ⟨a, _ | ⟨b, _ | ⟨c, ps⟩⟩⟩
  · simp at h
  · simp at h
  · simp at h
  · rfl

/-- C9, witness at `reg:R0:1:2`. -/
theorem action_reg_arity_error_leaves_halted_witness :
    action_reg false ["R0", "1", "2"] =
      (true, [CoreOp.isHalted false, CoreOp.halt],
        .error (.pyswd "too many parameters")) :=
  action_reg_arity_error_leaves_halted ["R0", "1", "2"] (by decide)

/-- C10: for a command shorter than the 16-byte capacity, the list bound to
the caller's `command` argument is, after `xfer` returns, the original
list extended in place with zero bytes to exactly 16 elements (Python
`command += [0] * n` extends the caller's list object itself). -/
theorem xfer_pads_callers_list (command data : List Nat) (rx_length : Nat)
    (h : command.length < STLINK_CMD_SIZE) :
    (xfer command data rx_length).2.1 =
      command ++ List.replicate (STLINK_CMD_SIZE - command.length) 0 ∧
    (xfer command data rx_length).2.1.length = STLINK_CMD_SIZE := by
  have h' : ¬ STLINK_CMD_SIZE < command.length := by omega
  refine ⟨by simp [xfer, h'], ?_⟩
  simp only [xfer, h', if_false, List.length_append, List.length_replicate]
  omega

/-- C10, witness at a 2-byte command. -/
theorem xfer_pads_callers_list_witness :
    (xfer [1, 2] [3] 4).2.1 = [1, 2] ++ List.replicate 14 0 ∧
    (xfer [1, 2] [3] 4).2.1.length = STLINK_CMD_SIZE :=
  xfer_pads_callers_list [1, 2] [3] 4 (by decide)

end Pyswd
